import Mathlib

/-!
Shallow embedding of `src/streamlit_dashboard/first_app.py` (map_viz repository).

The script loads a geodataframe of Dutch municipalities (`monuments_df`) with
per-subcategory monument counts and a population column `TotaleBevolking_1`,
and a category-to-column mapping table (`column_mapping_df`) with columns
`hoofdcategorie` and `column_mapping`.  It derives a per-municipality metric
`aantal_monumenten_binnen_categorie`, builds a legend scale, and renders a map.

Numeric columns are modelled as exact rationals (ℚ).  Results of the pandas
float pipeline that can be non-finite (division by zero population) are
modelled by the value type `PVal` with explicit `inf` / `negInf` / `nan`
constructors, following IEEE-754 semantics of numpy division at a zero
divisor (x/0 = +inf for x > 0, -inf for x < 0, NaN for 0/0).
-/

namespace FirstApp

/-- A float-like value: a finite rational, an infinity, or NaN. -/
inductive PVal where
  | num (q : ℚ)
  | inf
  | negInf
  | nan
deriving DecidableEq

/-- One row of `column_mapping_df`: columns `hoofdcategorie`, `column_mapping`. -/
structure MappingRow where
  hoofdcategorie : String
  column_mapping : String

/-- Line 39:
`selected_columns = column_mapping_df[column_mapping_df['hoofdcategorie'] == categorie]['column_mapping']`. -/
def selected_columns (mapping : List MappingRow) (categorie : String) : List String :=
  (mapping.filter (fun r => r.hoofdcategorie == categorie)).map (fun r => r.column_mapping)

/-- Line 41, per row: `monuments_df[selected_columns].sum(axis = 1)` — the row-wise
sum of the listed columns.  A municipality row is a map from column name to value. -/
def sum_selected (row : String → ℚ) (cols : List String) : ℚ :=
  (cols.map row).sum

/-- Line 44, per row:
`... / monuments_df['TotaleBevolking_1'] * 100000`, with numpy zero-divisor
semantics (positive/0 = +inf, negative/0 = -inf, 0/0 = NaN; no exception). -/
def rate_per_100000 (count pop : ℚ) : PVal :=
  if pop ≠ 0 then .num (count / pop * 100000)
  else if 0 < count then .inf
  else if count < 0 then .negInf
  else .nan

/-- Lines 39-44: the derived metric `aantal_monumenten_binnen_categorie` for one
municipality row, for the chosen category and normalization mode (`function` is
one of `'totaal aantal'`, `'aantal per 100.000 inwoners'`). -/
def aantal_monumenten_binnen_categorie (mapping : List MappingRow)
    (categorie functionMode : String) (row : String → ℚ) : PVal :=
  let count := sum_selected row (selected_columns mapping categorie)
  if functionMode == "aantal per 100.000 inwoners" then
    rate_per_100000 count (row "TotaleBevolking_1")
  else
    .num count

/-- The name of the derived column assigned on lines 41 and 44. -/
def derivedCol : String := "aantal_monumenten_binnen_categorie"

/-- A loaded numeric row viewed as a float-valued row (all entries finite). -/
def liftRow (row : String → ℚ) : String → PVal :=
  fun c => .num (row c)

/-- Pandas column assignment `df['name'] = v`, per row: pointwise update. -/
def updateCol (row : String → PVal) (name : String) (v : PVal) : String → PVal :=
  fun c => if c = name then v else row c

/-- Lines 41-44, per row: the municipality row after the aggregation block has
run (the derived column assigned; in rate mode the assignment on line 44
overwrites the count assigned on line 41, reading it and the population). -/
def aggregateRow (mapping : List MappingRow) (categorie functionMode : String)
    (row : String → ℚ) : String → PVal :=
  updateCol (liftRow row) derivedCol
    (aantal_monumenten_binnen_categorie mapping categorie functionMode row)

/-- Lines 41-44 over the whole dataframe (one entry per municipality). -/
def monuments_aggregate (mapping : List MappingRow) (categorie functionMode : String)
    (df : List (String → ℚ)) : List (String → PVal) :=
  df.map (aggregateRow mapping categorie functionMode)

end FirstApp

namespace FirstApp

/-! Concrete fixtures: a small mapping table and municipality rows. -/

/-- A two-subcategory mapping table: category `"A"` maps to columns `"a"` and
`"b"`, category `"B"` maps to column `"c"`. -/
def m0 : List MappingRow :=
  [⟨"A", "a"⟩, ⟨"A", "b"⟩, ⟨"B", "c"⟩]

/-- Municipality row with counts a=2, b=3, c=7 and population 100000. -/
def row0 : String → ℚ :=
  fun c =>
    if c = "a" then 2 else if c = "b" then 3 else if c = "c" then 7
    else if c = "TotaleBevolking_1" then 100000 else 0

/-- Municipality row with counts a=2, b=3 and population 0. -/
def rowZeroPop : String → ℚ :=
  fun c =>
    if c = "a" then 2 else if c = "b" then 3
    else if c = "TotaleBevolking_1" then 0 else 0

/-- Rows of a hand-built 3-municipality dataset (a,b counts 1,2 / 3,4 / 5,6). -/
def row1 : String → ℚ :=
  fun c => if c = "a" then 1 else if c = "b" then 2
    else if c = "TotaleBevolking_1" then 50000 else 0

def row2 : String → ℚ :=
  fun c => if c = "a" then 3 else if c = "b" then 4
    else if c = "TotaleBevolking_1" then 60000 else 0

def row3 : String → ℚ :=
  fun c => if c = "a" then 5 else if c = "b" then 6
    else if c = "TotaleBevolking_1" then 70000 else 0

end FirstApp

namespace FirstApp

/-- C1: in raw-total mode (`'totaal aantal'`), the derived metric equals the
row-wise sum of exactly the subcategory columns mapped to the chosen category
in the mapping table; checked also on a hand-built 3-municipality,
2-subcategory dataset. -/
theorem aggregator_sums_mapped_columns :
    (∀ (mapping : List MappingRow) (categorie : String) (row : String → ℚ),
      aantal_monumenten_binnen_categorie mapping categorie "totaal aantal" row
        = PVal.num (((mapping.filter (fun r => r.hoofdcategorie = categorie)).map
            (fun r => row r.column_mapping)).sum)) ∧
    (monuments_aggregate m0 "A" "totaal aantal" [row1, row2, row3]).map
        (fun r => r derivedCol)
      = [PVal.num 3, PVal.num 7, PVal.num 11] := by
  constructor
  · intro mapping categorie row
    have hfilter :
        mapping.filter (fun r => r.hoofdcategorie == categorie)
          = mapping.filter (fun r => decide (r.hoofdcategorie = categorie)) :=
      List.filter_congr
        (fun r _ => by by_cases h : r.hoofdcategorie = categorie <;> simp [h])
    simp only [aantal_monumenten_binnen_categorie, sum_selected, selected_columns,
      hfilter, List.map_map, Function.comp_def, beq_iff_eq]
    rw [if_neg (by decide)]
  · simp [monuments_aggregate, aggregateRow, updateCol, liftRow, derivedCol,
      aantal_monumenten_binnen_categorie, sum_selected, selected_columns,
      m0, row1, row2, row3]
    norm_num

/-- C2: in rate mode (`'aantal per 100.000 inwoners'`), for a municipality with
nonzero population, the derived metric equals the summed count divided by the
population and multiplied by 100000. -/
theorem rate_normalization_formula
    (mapping : List MappingRow) (categorie : String) (row : String → ℚ)
    (hpop : row "TotaleBevolking_1" ≠ 0) :
    aantal_monumenten_binnen_categorie mapping categorie
        "aantal per 100.000 inwoners" row
      = PVal.num (sum_selected row (selected_columns mapping categorie)
          / row "TotaleBevolking_1" * 100000) := by
  simp [aantal_monumenten_binnen_categorie, rate_per_100000, hpop]

/-- Witness for C2 at the spec's concrete instance: population 100000, raw count
2+3 = 5, rate output exactly 5. -/
theorem rate_normalization_formula_witness :
    row0 "TotaleBevolking_1" ≠ 0 ∧
    aantal_monumenten_binnen_categorie m0 "A" "aantal per 100.000 inwoners" row0
      = PVal.num 5 := by
  constructor
  · simp [row0]
  · have h := rate_normalization_formula m0 "A" row0 (by simp [row0])
    rw [h]
    simp [sum_selected, selected_columns, m0, row0]
    norm_num

end FirstApp

namespace FirstApp

/-! ### Scale builder (lines 46-51) -/

/-- Models `np.round(q, 0)` on an exact value: round half to even (numpy rounding). -/
def roundHalfEven (q : ℚ) : ℤ :=
  if q - ⌊q⌋ < 1/2 then ⌊q⌋
  else if 1/2 < q - ⌊q⌋ then ⌊q⌋ + 1
  else if ⌊q⌋ % 2 = 0 then ⌊q⌋ else ⌊q⌋ + 1

/-- Models `len(str(n))` for a natural number `n`: its number of decimal digits
(`numDigits 0 = 1`, matching `len("0")`). -/
def numDigits (n : ℕ) : ℕ :=
  if n < 10 then 1 else numDigits (n / 10) + 1
decreasing_by exact Nat.div_lt_self (by omega) (by omega)

/-- Line 47: `scale = np.linspace(0, max, 5)` — 5 points, step `max/4`,
endpoint included. -/
def evenScale (M : ℚ) : List ℚ :=
  (List.range 5).map (fun i => M / 4 * i)

/-- Lines 49-51: `n_digits = len(str(int(np.round(max, 0))))`;
`scale = [10**i for i in range(n_digits + 1)]`; `scale.insert(0, 0)`. -/
def powScale (M : ℚ) : List ℚ :=
  0 :: (List.range (numDigits (roundHalfEven M).toNat + 1)).map (fun i => (10:ℚ) ^ i)

/-- Lines 46-51: the legend scale for the chosen classification mode
(`label_classification` is `'gelijke intervals'` or `'machten van 10'`). -/
def scale (label_classification : String) (M : ℚ) : List ℚ :=
  if label_classification == "gelijke intervals" then evenScale M else powScale M

/-! Helper lemmas about rounding and digit counts. -/

theorem le_roundHalfEven_add_half (q : ℚ) : q ≤ (roundHalfEven q : ℚ) + 1/2 := by
  have hfl : (⌊q⌋ : ℚ) ≤ q := Int.floor_le q
  have hlt : q < ⌊q⌋ + 1 := Int.lt_floor_add_one q
  unfold roundHalfEven
  split
  · next h => linarith
  · next h =>
    split
    · next h' => push_cast; linarith
    · next h' =>
      split
      · linarith
      · push_cast; linarith

theorem roundHalfEven_nonneg {q : ℚ} (h : 0 ≤ q) : 0 ≤ roundHalfEven q := by
  have hfl : 0 ≤ ⌊q⌋ := Int.floor_nonneg.mpr h
  unfold roundHalfEven
  split
  · omega
  · split
    · omega
    · split <;> omega

theorem numDigits_eq_log (n : ℕ) : numDigits n = Nat.log 10 n + 1 := by
  induction n using Nat.strong_induction_on with
  | _ n ih =>
    rw [numDigits]
    split
    · next h => rw [Nat.log_of_lt h]
    · next h =>
      have h10 : 10 ≤ n := by omega
      rw [ih (n / 10) (Nat.div_lt_self (by omega) (by omega)), Nat.log_div_base]
      have hpos : 0 < Nat.log 10 n := Nat.log_pos (by omega) h10
      omega

theorem lt_pow_numDigits (n : ℕ) : n < 10 ^ numDigits n := by
  rw [numDigits_eq_log]
  exact Nat.lt_pow_succ_log_self (by norm_num) n

theorem evenScale_eq (M : ℚ) : evenScale M = [0, M/4, M/4*2, M/4*3, M] := by
  simp [evenScale, List.range_succ]

theorem numDigits_zero : numDigits 0 = 1 := by
  rw [numDigits]
  norm_num

theorem numDigits_250 : numDigits 250 = 3 := by
  rw [numDigits]
  norm_num
  rw [numDigits]
  norm_num
  rw [numDigits]
  norm_num

theorem evenScale_sorted (M : ℚ) (h : 0 ≤ M) : List.Sorted (· ≤ ·) (evenScale M) := by
  rw [evenScale_eq]
  refine List.chain'_iff_pairwise.mp ?_
  simp only [List.chain'_cons, List.chain'_singleton, and_true]
  refine ⟨by linarith, by linarith, by linarith, by linarith⟩

theorem evenScale_nonneg (M : ℚ) (h : 0 ≤ M) : ∀ x ∈ evenScale M, 0 ≤ x := by
  intro x hx
  rw [evenScale_eq] at hx
  simp only [List.mem_cons, List.not_mem_nil, or_false] at hx
  rcases hx with rfl | rfl | rfl | rfl | rfl <;> linarith

theorem powScale_sorted (M : ℚ) : List.Sorted (· ≤ ·) (powScale M) := by
  unfold powScale
  refine List.sorted_cons.mpr ⟨?_, ?_⟩
  · intro b hb
    simp only [List.mem_map, List.mem_range] at hb
    obtain ⟨i, _, rfl⟩ := hb
    positivity
  · refine List.pairwise_map.mpr ?_
    refine (List.pairwise_lt_range _).imp ?_
    intro a b hab
    exact pow_le_pow_right₀ (by norm_num) hab.le

theorem powScale_nonneg (M : ℚ) : ∀ x ∈ powScale M, 0 ≤ x := by
  intro x hx
  unfold powScale at hx
  rcases List.mem_cons.mp hx with h | h
  · simp [h]
  · simp only [List.mem_map, List.mem_range] at h
    obtain ⟨i, _, rfl⟩ := h
    positivity

end FirstApp

namespace FirstApp

/-- C3: the even-intervals scale has exactly 5 boundaries, starts at 0, ends at
the maximum, and consecutive boundaries differ by max/4 (4 equal buckets); in
particular for maximum 40 it is `[0, 10, 20, 30, 40]`. -/
theorem even_scale_five_boundaries :
    (∀ M : ℚ, (evenScale M).length = 5 ∧ (evenScale M).head? = some 0 ∧
      (evenScale M).getLast? = some M ∧
      (evenScale M).Chain' (fun a b => b - a = M / 4)) ∧
    evenScale 40 = [0, 10, 20, 30, 40] := by
  constructor
  · intro M
    rw [evenScale_eq]
    refine ⟨rfl, rfl, rfl, ?_⟩
    simp only [List.chain'_cons, List.chain'_singleton, and_true]
    refine ⟨by ring, by ring, by ring, by ring⟩
  · rw [evenScale_eq]
    norm_num

/-- C4: for every positive maximum, the powers-of-ten scale is
`[0, 10^0, ..., 10^d]` where `d` is the number of decimal digits of the rounded
maximum (expressed independently as `Nat.log 10 r + 1`); in particular for
maximum 250 it is `[0, 1, 10, 100, 1000]`. -/
theorem pow_scale_digit_boundaries :
    (∀ M : ℚ, 0 < M →
      powScale M
        = 0 :: (List.range ((Nat.log 10 (roundHalfEven M).toNat + 1) + 1)).map
            (fun i => (10:ℚ) ^ i)) ∧
    powScale 250 = [0, 1, 10, 100, 1000] := by
  constructor
  · intro M _
    rw [powScale, numDigits_eq_log]
  · have h250 : roundHalfEven (250:ℚ) = 250 := by
      unfold roundHalfEven
      norm_num
    rw [powScale, h250, show (250:ℤ).toNat = 250 from rfl, numDigits_250]
    norm_num [List.range_succ]

/-- Witness for C4 at maximum 250 (discharging the positivity hypothesis). -/
theorem pow_scale_digit_boundaries_witness :
    (0:ℚ) < 250 ∧
    powScale 250
      = 0 :: (List.range ((Nat.log 10 (roundHalfEven (250:ℚ)).toNat + 1) + 1)).map
          (fun i => (10:ℚ) ^ i) :=
  ⟨by norm_num, pow_scale_digit_boundaries.1 250 (by norm_num)⟩

/-- C5 counterexample: at maximum 0 the powers-of-ten builder does NOT
degenerate: the digit count is the well-defined `len(str(0)) = 1` (no log is
computed) and the output is the well-defined strictly ascending scale
`[0, 1, 10]`. -/
theorem pow_scale_zero_counterexample :
    powScale 0 = [0, 1, 10] ∧ List.Chain' (· < ·) (powScale 0) := by
  have h0 : roundHalfEven (0:ℚ) = 0 := by
    unfold roundHalfEven
    norm_num
  have hs : powScale 0 = [0, 1, 10] := by
    rw [powScale, h0]
    norm_num [numDigits_zero, List.range_succ]
  refine ⟨hs, ?_⟩
  rw [hs]
  refine List.chain'_cons.mpr ⟨by norm_num, List.chain'_cons.mpr ⟨by norm_num, List.chain'_singleton 10⟩⟩

/-- C5 amended: when the maximum is 0 and powers-of-ten classification is
selected, the digit count is 1 (the decimal-string length of 0) and the builder
produces the well-defined scale `[0, 1, 10]`; no runtime failure occurs. -/
theorem pow_scale_zero_well_defined :
    numDigits (roundHalfEven (0:ℚ)).toNat = 1 ∧ powScale 0 = [0, 1, 10] := by
  have h0 : roundHalfEven (0:ℚ) = 0 := by
    unfold roundHalfEven
    norm_num
  constructor
  · rw [h0]
    exact numDigits_zero
  · rw [powScale, h0]
    norm_num [numDigits_zero, List.range_succ]

/-- C7: for every non-negative maximum and either classification mode, the
scale is sorted ascending and all boundaries are non-negative. -/
theorem scale_sorted_nonneg (mode : String) (M : ℚ) (h : 0 ≤ M) :
    List.Sorted (· ≤ ·) (scale mode M) ∧ ∀ x ∈ scale mode M, 0 ≤ x := by
  unfold scale
  split
  · exact ⟨evenScale_sorted M h, evenScale_nonneg M h⟩
  · exact ⟨powScale_sorted M, powScale_nonneg M⟩

/-- Witness for C7 at maximum 40 in even-intervals mode. -/
theorem scale_sorted_nonneg_witness :
    (0:ℚ) ≤ 40 ∧
    (List.Sorted (· ≤ ·) (scale "gelijke intervals" 40) ∧
      ∀ x ∈ scale "gelijke intervals" 40, 0 ≤ x) :=
  ⟨by norm_num, scale_sorted_nonneg "gelijke intervals" 40 (by norm_num)⟩

/-- C10: for every non-negative maximum, the last boundary of the
powers-of-ten scale is strictly greater than the maximum, so the whole range
of the derived metric is covered. -/
theorem pow_scale_last_exceeds_max (M : ℚ) (h : 0 ≤ M) :
    M < (powScale M).getLastD 0 := by
  have hr : 0 ≤ roundHalfEven M := roundHalfEven_nonneg h
  have hlast :
      (powScale M).getLastD 0 = (10:ℚ) ^ numDigits (roundHalfEven M).toNat := by
    rw [powScale, List.range_succ, List.map_append]
    simp only [List.map_cons, List.map_nil]
    rw [← List.cons_append, List.getLastD_concat]
  rw [hlast]
  have h1 : M ≤ (roundHalfEven M : ℚ) + 1/2 := le_roundHalfEven_add_half M
  have h2 : ((roundHalfEven M).toNat : ℚ) = (roundHalfEven M : ℚ) := by
    exact_mod_cast Int.toNat_of_nonneg hr
  have h3 := lt_pow_numDigits (roundHalfEven M).toNat
  have h4 : ((roundHalfEven M).toNat : ℚ) + 1 ≤ (10:ℚ) ^ numDigits (roundHalfEven M).toNat := by
    have : ((roundHalfEven M).toNat + 1 : ℕ) ≤ 10 ^ numDigits (roundHalfEven M).toNat := h3
    exact_mod_cast this
  linarith

/-- Witness for C10 at maximum 0: the last boundary 10 exceeds 0. -/
theorem pow_scale_last_exceeds_max_witness :
    (0:ℚ) ≤ 0 ∧ (0:ℚ) < (powScale 0).getLastD 0 :=
  ⟨le_refl 0, pow_scale_last_exceeds_max 0 (le_refl 0)⟩

end FirstApp

namespace FirstApp

/-- C6 counterexample: population 0 with summed count 5 (positive) yields
`+inf` — a non-NaN value — under numpy division semantics, so the derived
metric is not "an undefined/NaN value" there. -/
theorem zero_population_inf_counterexample :
    aantal_monumenten_binnen_categorie m0 "A" "aantal per 100.000 inwoners"
        rowZeroPop
      = PVal.inf ∧ PVal.inf ≠ PVal.nan := by
  constructor
  · simp [aantal_monumenten_binnen_categorie, rate_per_100000, sum_selected,
      selected_columns, m0, rowZeroPop]
    norm_num
  · simp

/-- C6 amended: for population 0, the rate computation is total (no exception);
the derived metric is non-finite: `+inf` for a positive summed count, `-inf`
for a negative one, and NaN only when the count is 0. -/
theorem zero_population_nonfinite
    (mapping : List MappingRow) (categorie : String) (row : String → ℚ)
    (hpop : row "TotaleBevolking_1" = 0) :
    aantal_monumenten_binnen_categorie mapping categorie
        "aantal per 100.000 inwoners" row
      = (if 0 < sum_selected row (selected_columns mapping categorie) then PVal.inf
         else if sum_selected row (selected_columns mapping categorie) < 0 then
           PVal.negInf
         else PVal.nan) := by
  simp [aantal_monumenten_binnen_categorie, rate_per_100000, hpop]

/-- Witness for the amended C6 at a concrete zero-population municipality. -/
theorem zero_population_nonfinite_witness :
    rowZeroPop "TotaleBevolking_1" = 0 ∧
    aantal_monumenten_binnen_categorie m0 "A" "aantal per 100.000 inwoners"
        rowZeroPop
      = (if 0 < sum_selected rowZeroPop (selected_columns m0 "A") then PVal.inf
         else if sum_selected rowZeroPop (selected_columns m0 "A") < 0 then
           PVal.negInf
         else PVal.nan) := by
  refine ⟨by simp [rowZeroPop], ?_⟩
  exact zero_population_nonfinite m0 "A" rowZeroPop (by simp [rowZeroPop])

end FirstApp

namespace FirstApp

/-! ### Map centering (lines 55-61) -/

/-- A municipality centroid in `epsg:4326`: `x` is longitude, `y` latitude. -/
structure Centroid where
  x : ℚ
  y : ℚ

/-- Insert into an ascending-sorted list (helper for the sort in `np.median`). -/
def insertSorted (a : ℚ) : List ℚ → List ℚ
  | [] => [a]
  | b :: l => if a ≤ b then a :: b :: l else b :: insertSorted a l

/-- Ascending sort of the values (the sort `np.median` performs). -/
def sortAsc (l : List ℚ) : List ℚ :=
  l.foldr insertSorted []

/-- Models `np.median`: sort ascending, take the middle element (odd length) or the
average of the two middle elements (even length). -/
def npMedian (l : List ℚ) : ℚ :=
  let s := sortAsc l
  let n := l.length
  if n % 2 = 1 then s.getD (n / 2) 0
  else (s.getD (n / 2 - 1) 0 + s.getD (n / 2) 0) / 2

/-- Models `np.mean`: sum divided by length. -/
def npMean (l : List ℚ) : ℚ :=
  l.sum / l.length

/-- Line 55: `x_center_coord = np.median(monuments_df.centroid.to_crs('epsg:4326').x)`. -/
def x_center_coord (cs : List Centroid) : ℚ :=
  npMedian (cs.map Centroid.x)

/-- Line 56: `y_center_coord = np.mean(monuments_df.centroid.to_crs('epsg:4326').y)`. -/
def y_center_coord (cs : List Centroid) : ℚ :=
  npMean (cs.map Centroid.y)

/-- Line 61: the folium map's `location = [y_center_coord, x_center_coord]`
(latitude first, then longitude). -/
def mapLocation (cs : List Centroid) : ℚ × ℚ :=
  (y_center_coord cs, x_center_coord cs)

/-- C8: the map's centering coordinate is (mean of centroid latitudes, median
of centroid longitudes) — i.e. the median is applied to the longitudes (x) and
the mean to the latitudes (y); checked also on a concrete 3-centroid dataset
(longitudes 4, 6, 5 with median 5; latitudes 51, 53, 52 with mean 52). -/
theorem map_center_median_mean :
    (∀ cs : List Centroid,
      mapLocation cs = (npMean (cs.map Centroid.y), npMedian (cs.map Centroid.x))) ∧
    mapLocation [⟨4, 51⟩, ⟨6, 53⟩, ⟨5, 52⟩] = (52, 5) := by
  constructor
  · intro cs
    rfl
  · simp only [mapLocation, x_center_coord, y_center_coord, npMedian, npMean,
      sortAsc, insertSorted, List.map_cons, List.map_nil, List.foldr]
    norm_num [List.getD]

/-- C9: under either normalization mode, the aggregation block leaves every
column other than the derived column unchanged in every municipality row. -/
theorem aggregate_preserves_other_columns
    (mapping : List MappingRow) (categorie functionMode : String)
    (df : List (String → ℚ)) (c : String) (hc : c ≠ derivedCol) :
    (monuments_aggregate mapping categorie functionMode df).map (fun r => r c)
      = df.map (fun r => PVal.num (r c)) := by
  simp [monuments_aggregate, aggregateRow, updateCol, liftRow, hc]

/-- Witness for C9: the population column is untouched on a concrete dataset. -/
theorem aggregate_preserves_other_columns_witness :
    "TotaleBevolking_1" ≠ derivedCol ∧
    (monuments_aggregate m0 "A" "totaal aantal" [row1]).map
        (fun r => r "TotaleBevolking_1")
      = [row1].map (fun r => PVal.num (r "TotaleBevolking_1")) :=
  ⟨by simp [derivedCol],
    aggregate_preserves_other_columns m0 "A" "totaal aantal" [row1]
      "TotaleBevolking_1" (by simp [derivedCol])⟩

end FirstApp
